import Mathlib

/-!
Verification of the carla-mcp-server control-plane core against its design
specification.

The Python source is shallowly embedded: plugin/parameter ids are `ℕ`,
parameter values are `ℚ` (they pass through the operations unchanged, so
exact arithmetic is a faithful model of the float plumbing), Python
exceptions are explicit `PyExc` values, and every stateful method becomes a
function from an explicit state record to an updated state record plus a
result.  Wall-clock behaviour of a blocking call is modelled by a rational
`duration` field; a batch times out exactly when the summed durations of
its operations exceed the batch budget, matching `asyncio.wait_for` on the
worker thread that runs the operations sequentially.
-/

namespace CarlaMCP

/-- A Python exception: its class name and its message
(`src/utils/async_helpers.py` handles these generically). -/
structure PyExc where
  excType : String
  msg : String
deriving DecidableEq, Repr

/-! ## BlockingBridge: `run_blocking` (src/utils/async_helpers.py lines 71-138)

A single blocking callable is modelled by the wall-clock time it takes on
the worker and the outcome it produces there (`.ok v` for a return,
`.error e` for a raise). -/

/-- One underlying blocking callable: how long it runs on the worker thread
and what it produces. -/
structure BlockingCall (V : Type) where
  duration : ℚ
  outcome : Except PyExc V

/-- Embedding of `run_blocking` (src/utils/async_helpers.py lines 126-138):
`asyncio.wait_for(asyncio.to_thread(func,...), timeout)` raises
`TimeoutError` when the call has not finished within `timeout`; any other
exception from the callable is logged and re-raised *unchanged* by
`except Exception as e: ... raise`. -/
def run_blocking (f : BlockingCall V) (timeout : ℚ) (description : String) :
    Except PyExc V :=
  if timeout < f.duration then
    Except.error ⟨"TimeoutError", description ++ " exceeded timeout"⟩
  else
    match f.outcome with
    | Except.ok v => Except.ok v
    | Except.error e => Except.error e

/-- Modelled from the spec (§4.1): the spec claims the bridge converts any
exception raised by the underlying call into an `OperationFailure` carrying
the original message.  This definition follows the spec words and exists
only to be compared with `run_blocking`, which is translated from the
source. -/
def run_blocking_specified (f : BlockingCall V) (timeout : ℚ)
    (description : String) : Except PyExc V :=
  if timeout < f.duration then
    Except.error ⟨"Timeout", description⟩
  else
    match f.outcome with
    | Except.ok v => Except.ok v
    | Except.error e => Except.error ⟨"OperationFailure", e.msg⟩

/-! ## BatchBridge: `batch_blocking` (src/utils/async_helpers.py lines 141-223) -/

/-- One batched operation: a `(func, args, kwargs)` tuple of
`batch_blocking`, modelled by the worker time it takes and its result
(`none` models the callable raising, which `execute_batch` converts to a
`None` slot). -/
structure BlockingOp (V : Type) where
  duration : ℚ
  result : Option V
deriving DecidableEq, Repr

/-- The inner `execute_batch` closure (lines 198-207): runs the batch
sequentially on one worker, catching each exception and appending `None`
for it. -/
def executeBatch (batch : List (BlockingOp V)) : List (Option V) :=
  batch.map (fun op => op.result)

/-- Wall-clock time the worker needs for a whole batch: the operations run
sequentially, so the batch finishes at the sum of the durations. -/
def batchDuration (batch : List (BlockingOp V)) : ℚ :=
  (batch.map (fun op => op.duration)).sum

/-- Time at which operation `i` of a batch completes on the worker
(operations run sequentially in order). -/
def completionTime (batch : List (BlockingOp V)) (i : ℕ) : ℚ :=
  ((batch.take (i + 1)).map (fun op => op.duration)).sum

/-- The `for batch_start in range(0, len(operations), batch_size)` loop of
`batch_blocking` for a positive `batch_size` `bs`: each round takes the
slice `operations[batch_start : batch_start+bs]`, runs it through
`execute_batch` under `asyncio.wait_for(..., timeout)`, and on timeout
extends the output with `len(batch)` copies of `None` instead
(lines 193-221). -/
def batchLoop (bs : ℕ) (timeout : ℚ) : List (BlockingOp V) → List (Option V)
  | [] => []
  | op :: rest =>
      let batch := op :: rest.take (bs - 1)
      (if batchDuration batch ≤ timeout then executeBatch batch
       else List.replicate batch.length none)
      ++ batchLoop bs timeout (rest.drop (bs - 1))
termination_by ops => ops.length
decreasing_by
  simp [List.length_drop]
  omega

/-- Embedding of `batch_blocking` (lines 141-223).  `batch_size` is a
Python `int`: `range(0, n, 0)` raises `ValueError` (modelled as `none`),
`range(0, n, k)` for `k < 0` is empty so the function returns `[]`, and for
`k ≥ 1` the batching loop runs. -/
def batch_blocking (ops : List (BlockingOp V)) (batchSize : ℤ)
    (timeoutPerBatch : ℚ) : Option (List (Option V)) :=
  if batchSize = 0 then none
  else if batchSize < 0 then some []
  else some (batchLoop batchSize.toNat timeoutPerBatch ops)

/-- The contiguous batch that contains input slot `i` when `ops` is cut
into batches of `bs`: slots `bs*(i/bs) .. bs*(i/bs)+bs-1`. -/
def chunkOf (ops : List (BlockingOp V)) (bs i : ℕ) : List (BlockingOp V) :=
  (ops.drop (bs * (i / bs))).take bs

/-! ## RoutingGraph feedback detection: `_detect_feedback_loops`
(src/tools/routing_tools.py lines 474-510)

Plugin ids are `ℕ`.  Python sets whose iteration order is never observed
(`visited`, `stack`) are modelled as duplicate-free lists with membership
tests; the insertion-ordered `graph` dict is an association list.  The
recursive `has_cycle` helper is embedded with a fuel argument: every nested
call is on a node not yet visited, so the recursion depth is bounded by the
number of distinct node ids, and the fuel passed by `detect_feedback_loops`
(`2 * |connections| + 1`, one id per endpoint plus one) strictly exceeds
that depth, making the fuel-exhaustion branch unreachable. -/

/-- `set.add` for a Python set modelled as a duplicate-free list. -/
def pyAdd (s : List ℕ) (x : ℕ) : List ℕ :=
  if x ∈ s then s else s ++ [x]

/-- `graph[source].append(dest)`, creating `graph[source] = []` first when
the key is new (lines 479-485): dict keys keep insertion order. -/
def addEdge (g : List (ℕ × List ℕ)) (s d : ℕ) : List (ℕ × List ℕ) :=
  if (g.find? (fun p => p.1 == s)).isSome then
    g.map (fun p => if p.1 == s then (p.1, p.2 ++ [d]) else p)
  else
    g ++ [(s, [d])]

/-- Adjacency construction over the connection list (lines 478-485). -/
def buildGraph (conns : List (ℕ × ℕ)) : List (ℕ × List ℕ) :=
  conns.foldl (fun g c => addEdge g c.1 c.2) []

/-- `graph[node]` when `node in graph`, else no neighbours (line 493). -/
def graphLookup (g : List (ℕ × List ℕ)) (n : ℕ) : List ℕ :=
  match g.find? (fun p => p.1 == n) with
  | some p => p.2
  | none => []

/-- The recursive `has_cycle(node, visited, stack)` (lines 489-502): adds
`node` to the shared `visited` set and the per-root `stack`, walks the
neighbours in order, recursing into unvisited ones and reporting a back
edge (`loops.append(f"{node} -> {neighbor}")`, return `True`) on a
neighbour currently on the stack.  The early `return True` is modelled by
the fold passing a `true` flag through unchanged; on a normal exit the
Python code restores `stack` exactly, so passing the extended stack only
downwards is faithful. -/
def dfsVisit (g : List (ℕ × List ℕ)) :
    ℕ → ℕ → List ℕ → List ℕ → List String → List ℕ × List String × Bool
  | 0, node, visited, _stack, loops => (pyAdd visited node, loops, false)
  | fuel + 1, node, visited, stack, loops =>
      let stackTop := pyAdd stack node
      (graphLookup g node).foldl
        (fun st n =>
          match st with
          | (v, l, true) => (v, l, true)
          | (v, l, false) =>
            if n ∈ v then
              if n ∈ stackTop then
                (v, l ++ [toString node ++ " -> " ++ toString n], true)
              else
                (v, l, false)
            else
              dfsVisit g fuel n v stackTop l)
        (pyAdd visited node, loops, false)

/-- Fuel bound for the embedded DFS: strictly more than the number of
distinct node ids that can appear in the graph. -/
def dfsFuel (conns : List (ℕ × ℕ)) : ℕ :=
  2 * conns.length + 1

/-- Embedding of `_detect_feedback_loops` (lines 474-510): every graph key
is tried once as a DFS root, skipping nodes already visited from an earlier
root; the function returns the accumulated list of back-edge strings. -/
def detect_feedback_loops (conns : List (ℕ × ℕ)) : List String :=
  let g := buildGraph conns
  (g.foldl
    (fun (st : List ℕ × List String) entry =>
      if entry.1 ∈ st.1 then st
      else
        let r := dfsVisit g (dfsFuel conns) entry.1 st.1 [] st.2
        (r.1, r.2.1))
    ([], [])).2

/-! ## CarlaController and its tool layers

`CarlaController` (src/carla_controller.py) wraps the external Carla host.
The host side of the controller is part of the explicit state: the host's
parameter store, plugin count, plugin info, parameter counts/hints/ranges
are fields holding the values the corresponding host getters return, and a
`calls` trace records every mutating host invocation that is issued (used
to express "no engine call is made" / "the call was already issued").
Python dicts are modelled as insertion-ordered association lists with
dict-update semantics (`dinsert`). -/

/-- `dict[k]` lookup for a Python dict modelled as an association list. -/
def dlookup [BEq K] (m : List (K × A)) (k : K) : Option A :=
  (m.find? (fun p => p.1 == k)).map (fun p => p.2)

/-- `dict[k] = v`: overwrite in place when the key exists (keeping its
insertion position), append otherwise. -/
def dinsert [BEq K] (m : List (K × A)) (k : K) (v : A) : List (K × A) :=
  if (dlookup m k).isSome then
    m.map (fun p => if p.1 == k then (k, v) else p)
  else
    m ++ [(k, v)]

/-- `del dict[k]`. -/
def dremove [BEq K] (m : List (K × A)) (k : K) : List (K × A) :=
  m.filter (fun p => !(p.1 == k))

/-- The slice of `host.get_plugin_info` the embedded code reads. -/
structure PlugInfo where
  name : String
  audioIns : ℕ
deriving DecidableEq, Repr

/-- One entry of `self.plugins` — the controller's mirror dict for a
plugin.  Python builds these dicts ad hoc with `.get(key, default)`
reads, so missing keys are modelled by the corresponding default values
(`active` default `False` is applied at each read site; `volume`/`dry_wet`
read with defaults `1.0`). -/
structure PluginRec where
  name : String
  active : Bool
  volume : ℚ
  drywet : ℚ
  parameters : List (ℕ × ℚ)
deriving DecidableEq, Repr

/-- A mutating host invocation, recorded in issue order. -/
inductive EngineCall
  | setParam (pid param : ℕ) (v : ℚ)
  | setActive (pid : ℕ) (b : Bool)
  | connect (sp spo dp dpo : ℕ)
  | loadProj
  | setVolume (pid : ℕ) (v : ℚ)
  | setDrywet (pid : ℕ) (v : ℚ)
deriving DecidableEq, Repr

/-- The `CarlaController` state (src/carla_controller.py): its mirror
tables plus the host-side state the code can observe. -/
structure Controller where
  plugins : List (ℕ × PluginRec)
  connections : List (ℕ × ℕ × ℕ × ℕ)
  hostParams : ℕ × ℕ → ℚ
  hostCount : ℕ
  hostInfo : ℕ → Option PlugInfo
  hostParamCount : ℕ → ℕ
  hostHints : ℕ × ℕ → ℕ
  hostMin : ℕ × ℕ → ℚ
  hostMax : ℕ × ℕ → ℚ
  hostHasSetVolume : Bool
  hostHasSetDrywet : Bool
  calls : List EngineCall

/-- `CarlaController.set_parameter` (src/carla_controller.py lines
549-565): an unknown plugin id returns silently before any host call;
otherwise `host.set_parameter_value` is issued and the value is mirrored
into `plugins[pid]['parameters']`. -/
def Controller.set_parameter (c : Controller) (pid param : ℕ) (v : ℚ) :
    Controller :=
  match dlookup c.plugins pid with
  | none => c
  | some r =>
      { c with
        hostParams := fun k => if k = (pid, param) then v else c.hostParams k,
        plugins := dinsert c.plugins pid
          { r with parameters := dinsert r.parameters param v },
        calls := c.calls ++ [EngineCall.setParam pid param v] }

/-- `CarlaController.get_parameter` (lines 566-571): `0.0` for an unknown
plugin id, otherwise `host.get_current_parameter_value`. -/
def Controller.get_parameter (c : Controller) (pid param : ℕ) : ℚ :=
  match dlookup c.plugins pid with
  | none => 0
  | some _ => c.hostParams (pid, param)

/-- `CarlaController.set_plugin_active` (lines 541-547): silent return on
an unknown id, otherwise `host.set_active` plus the mirror update. -/
def Controller.set_plugin_active (c : Controller) (pid : ℕ) (active : Bool) :
    Controller :=
  match dlookup c.plugins pid with
  | none => c
  | some r =>
      { c with
        plugins := dinsert c.plugins pid { r with active := active },
        calls := c.calls ++ [EngineCall.setActive pid active] }

/-- `CarlaController.connect_audio` (lines 725-749): appends the
connection record and returns `True`. -/
def Controller.connect_audio (c : Controller) (sp spo dp dpo : ℕ) :
    Controller × Bool :=
  ({ c with
      connections := c.connections ++ [(sp, spo, dp, dpo)],
      calls := c.calls ++ [EngineCall.connect sp spo dp dpo] }, true)

/-- The slice of `get_parameter_info` (lines 573-591) the embedded tools
read: hints and ranges from the host, `current` via `get_parameter`. -/
structure ParamInfo where
  hints : ℕ
  minV : ℚ
  maxV : ℚ
  current : ℚ
deriving DecidableEq, Repr

def Controller.get_parameter_info (c : Controller) (pid param : ℕ) :
    ParamInfo :=
  ⟨c.hostHints (pid, param), c.hostMin (pid, param), c.hostMax (pid, param),
   c.get_parameter pid param⟩

/-- The host-side state that results from `host.load_project(path)`: what
the loaded project file makes the host report afterwards, plus whether the
load succeeded.  This is external-engine behaviour, so it is a parameter of
the embedding. -/
structure HostImage where
  loadOk : Bool
  params : ℕ × ℕ → ℚ
  count : ℕ
  info : ℕ → Option PlugInfo
  paramCount : ℕ → ℕ
  hints : ℕ × ℕ → ℕ
  minV : ℕ × ℕ → ℚ
  maxV : ℕ × ℕ → ℚ

/-- `CarlaController.load_project` (lines 762-790): clears the mirror
tables, asks the host to load, and on success rebuilds `self.plugins` with
`{'id': i, 'name': info['name'], 'active': True}` for every plugin the
host reports info for. -/
def Controller.load_project (c : Controller) (img : HostImage) :
    Controller × Bool :=
  let base := { c with
    plugins := ([] : List (ℕ × PluginRec)),
    connections := ([] : List (ℕ × ℕ × ℕ × ℕ)),
    calls := c.calls ++ [EngineCall.loadProj] }
  if img.loadOk then
    ({ base with
        hostParams := img.params,
        hostCount := img.count,
        hostInfo := img.info,
        hostParamCount := img.paramCount,
        hostHints := img.hints,
        hostMin := img.minV,
        hostMax := img.maxV,
        plugins := (List.range img.count).filterMap (fun i =>
          (img.info i).map (fun nfo =>
            (i, PluginRec.mk nfo.name true 1 1 []))) }, true)
  else
    (base, false)

/-! ## ParameterTools (src/tools/parameter_tools.py) -/

/-- One entry of `self.automations`, created by `automate_parameter`
(lines 96-107) with `'running': True`. -/
structure AutomationRecord where
  pluginId : ℕ
  parameterId : ℕ
  autoType : String
  durationMs : ℕ
  running : Bool
deriving DecidableEq, Repr

/-- The linear branch of `_run_automation` (lines 151-162): `steps =
int(duration_ms / 10)`, and step `i` sets
`start + (end - start) * (i / steps)` through
`self.carla.set_parameter`.  The function receives no automation id and
touches neither `self.automations` nor any record in it. -/
def run_automation_linear (c : Controller) (pid param : ℕ)
    (startV endV : ℚ) (steps : ℕ) : Controller :=
  (List.range steps).foldl
    (fun st (i : ℕ) =>
      st.set_parameter pid param
        (startV + (endV - startV) * ((i : ℚ) / (steps : ℚ))))
    c

/-- `automate_parameter` (lines 64-135) with a linear curve, composed with
the completed run of its worker thread `_run_automation`: after
`validate_plugin_id` passes, the record is stored with `running := true`
and the driving loop runs to completion.  Start/end values follow lines
151-157: explicit keyframes when at least two are given, else
`param_info['current']` to `param_info['max']`. -/
def automate_parameter_completes (c : Controller)
    (table : List (String × AutomationRecord)) (aid : String)
    (pid param : ℕ) (durationMs : ℕ) (values : List ℚ) :
    Controller × List (String × AutomationRecord) × Bool :=
  if pid < c.hostCount then
    let info := c.get_parameter_info pid param
    let startEnd :=
      match values with
      | v0 :: v1 :: _ => (v0, v1)
      | _ => (info.current, info.maxV)
    let record : AutomationRecord := ⟨pid, param, "linear", durationMs, true⟩
    let table2 := dinsert table aid record
    let steps := durationMs / 10
    (run_automation_linear c pid param startEnd.1 startEnd.2 steps,
     table2, true)
  else
    (c, table, false)

/-- `randomize_parameters` (src/tools/parameter_tools.py lines 576-641).
`rng p` is the value `random.uniform(min, max)` drawn for parameter `p`
(randomness is a parameter of the embedding).  Note the guard on line
600: `if param_info.get('hints', 0) & 0x100: continue` — it skips the
parameters whose `IS_AUTOMATABLE` bit (0x100) *is* set, and each new value
is applied by a direct `self.carla.set_parameter` call inside the loop.
Returns the updated controller, the `randomized` list of
`(param_id, new_value)` entries, and the success flag. -/
def randomize_parameters (c : Controller) (pid : ℕ) (amount : ℚ)
    (exclude : List ℕ) (rng : ℕ → ℚ) :
    Controller × List (ℕ × ℚ) × Bool :=
  if pid < c.hostCount then
    let r := (List.range (c.hostParamCount pid)).foldl
      (fun (st : Controller × List (ℕ × ℚ)) p =>
        if p ∈ exclude then st
        else
          let info := st.1.get_parameter_info pid p
          if info.hints &&& 256 ≠ 0 then st
          else
            let newVal := info.current + (rng p - info.current) * amount
            (st.1.set_parameter pid p newVal, st.2 ++ [(p, newVal)]))
      (c, [])
    (r.1, r.2, true)
  else
    (c, [], false)

/-! ## RoutingTools (src/tools/routing_tools.py) -/

/-- One entry of `self.sidechains` (lines 229-236). -/
structure SidechainInfo where
  source : ℕ
  dest : ℕ
  inputIdx : ℕ
deriving DecidableEq, Repr

/-- The sidechain table of `RoutingTools`. -/
structure RoutingState where
  sidechains : List (String × SidechainInfo)
deriving DecidableEq, Repr

/-- `setup_sidechain` (src/tools/routing_tools.py lines 183-253): after
both plugin ids validate, `self.carla.connect_audio(source, 0, dest,
sidechain_input + 2)` is issued; the next statement `if channels > 1:`
reads the unbound local name `channels`, raising `NameError`, which the
enclosing `except Exception` converts into a `success: False` result —
before `self.sidechains[sidechain_id]` is ever assigned.  (The
`get_plugin_info` check on the destination only logs a warning.) -/
def setup_sidechain (r : RoutingState) (c : Controller)
    (src dst scInput : ℕ) : RoutingState × Controller × Bool × String :=
  if (dlookup c.plugins src).isNone then
    (r, c, false, "Source plugin not found: " ++ toString src)
  else if (dlookup c.plugins dst).isNone then
    (r, c, false, "Destination plugin not found: " ++ toString dst)
  else
    let c1 := (c.connect_audio src 0 dst (scInput + 2)).1
    (r, c1, false, "name channels is not defined")

/-! ## SessionTools (src/tools/session_tools.py) -/

/-- One captured per-plugin state of a snapshot (lines 392-412). -/
structure PluginState where
  id : ℕ
  name : String
  active : Bool
  volume : ℚ
  drywet : ℚ
  parameters : List (ℕ × ℚ)
deriving DecidableEq, Repr

/-- One entry of `self.snapshots` (lines 421-430): `dir` is the parent
directory of `path`, holding the `.carxp` file and the metadata file. -/
structure Snapshot where
  name : String
  sessionId : String
  path : String
  dir : String
  pluginStates : List PluginState
deriving DecidableEq, Repr

/-- One entry of `self.sessions`. -/
structure Session where
  name : String
  path : String
deriving DecidableEq, Repr

/-- The `SessionTools` state: its two tables, the active session, and the
set of snapshot directories existing on disk (the file-system effect the
claims observe). -/
structure SessionState where
  sessions : List (String × Session)
  snapshots : List (String × Snapshot)
  activeSession : Option String
  fs : List String
deriving DecidableEq, Repr

/-- The plugin-state capture of `create_snapshot` (lines 357-412): for
every `i` in `range(get_current_plugin_count())` whose `get_plugin_info`
is truthy, record the mirror's `active`/`volume`/`dry_wet` (with the
`.get` defaults `False`, `1.0`, `1.0`) and one `(p, get_parameter(i, p))`
pair per parameter index.  The batched host reads are modelled as all
completing (their effects are reads). -/
def capturePluginStates (c : Controller) : List PluginState :=
  (List.range c.hostCount).filterMap (fun i =>
    match c.hostInfo i with
    | none => none
    | some nfo =>
        some
          { id := i,
            name := nfo.name,
            active := ((dlookup c.plugins i).map
              (fun r => r.active)).getD false,
            volume := ((dlookup c.plugins i).map
              (fun r => r.volume)).getD 1,
            drywet := ((dlookup c.plugins i).map
              (fun r => r.drywet)).getD 1,
            parameters := (List.range (c.hostParamCount i)).map
              (fun p => (p, c.get_parameter i p)) })

/-- `create_snapshot` (lines 322-457): requires an active session,
creates the snapshot directory, saves the project into it, captures the
plugin states, and stores the snapshot record.  `snapshotId` is the
freshly drawn uuid. -/
def create_snapshot (st : SessionState) (c : Controller)
    (snapshotId name : String) : SessionState × Bool :=
  match st.activeSession with
  | none => (st, false)
  | some active =>
      let dir := "snapshots/" ++ snapshotId
      let path := dir ++ "/" ++ name ++ ".carxp"
      let snap : Snapshot :=
        ⟨name, active, path, dir, capturePluginStates c⟩
      ({ st with
          snapshots := dinsert st.snapshots snapshotId snap,
          fs := if dir ∈ st.fs then st.fs else st.fs ++ [dir] }, true)

/-- The `param_ops` batch of the snapshot-restore path (lines 487-516):
one `self.carla.set_parameter(plugin_id, int(param_id), value)` per
captured pair, in capture order.  `batch_blocking` runs the operations
sequentially on the worker, and their side effects execute even if the
awaiting task times out (the thread is not interrupted), so the effect of
the batch is the sequential fold of the calls. -/
def restoreParamOps (states : List PluginState) (c : Controller) :
    Controller :=
  states.foldl
    (fun cc ps =>
      ps.parameters.foldl
        (fun c2 pv => c2.set_parameter ps.id pv.1 pv.2) cc)
    c

/-- The `plugin_active_ops` batch (lines 500-527): one
`set_plugin_active(plugin_id, plugin_state['active'])` per captured
plugin. -/
def restoreActiveOps (states : List PluginState) (c : Controller) :
    Controller :=
  states.foldl (fun cc ps => cc.set_plugin_active ps.id ps.active) c

/-- One volume step of the restore loop (lines 531-540): a host
`set_volume` call when the host exposes one, otherwise the mirror write
`self.carla.plugins[plugin_id]['volume'] = ...`, which raises `KeyError`
(`none`) when the plugin id is not in the mirror. -/
def setVolumeStep (c : Controller) (pid : ℕ) (vol : ℚ) : Option Controller :=
  if c.hostHasSetVolume then
    some { c with calls := c.calls ++ [EngineCall.setVolume pid vol] }
  else
    match dlookup c.plugins pid with
    | some r =>
        some { c with plugins := dinsert c.plugins pid { r with volume := vol } }
    | none => none

/-- One dry/wet step of the restore loop (lines 542-551), dual to
`setVolumeStep`. -/
def setDrywetStep (c : Controller) (pid : ℕ) (dw : ℚ) : Option Controller :=
  if c.hostHasSetDrywet then
    some { c with calls := c.calls ++ [EngineCall.setDrywet pid dw] }
  else
    match dlookup c.plugins pid with
    | some r =>
        some { c with plugins := dinsert c.plugins pid { r with drywet := dw } }
    | none => none

/-- The volume / dry-wet restore loop (lines 529-551); a `KeyError` stops
the loop (the exception propagates to the outer handler) but keeps every
state change already made. -/
def restoreVolDry : List PluginState → Controller → Controller × Bool
  | [], c => (c, true)
  | ps :: rest, c =>
      match setVolumeStep c ps.id ps.volume with
      | none => (c, false)
      | some c1 =>
          match setDrywetStep c1 ps.id ps.drywet with
          | none => (c1, false)
          | some c2 => restoreVolDry rest c2

/-- `switch_session` (src/tools/session_tools.py lines 459-557).  For a
snapshot id: load the snapshot's project, and on success replay the
captured parameters, active flags, and volume/dry-wet values; on a failed
load, control falls through to `session = self.sessions[session_id]`,
whose `KeyError` the outer handler turns into a failure.  For a session
id: load the session's project and set it active.  Unknown ids fail
(`Session not found`).  Returns the new state, controller, and success
flag. -/
def switch_session (st : SessionState) (c : Controller) (sid : String)
    (img : HostImage) : SessionState × Controller × Bool :=
  if (dlookup st.sessions sid).isSome then
    let r := c.load_project img
    if r.2 then ({ st with activeSession := some sid }, r.1, true)
    else (st, r.1, false)
  else
    match dlookup st.snapshots sid with
    | some snap =>
        let r := c.load_project img
        if r.2 then
          let c2 := restoreParamOps snap.pluginStates r.1
          let c3 := restoreActiveOps snap.pluginStates c2
          let rv := restoreVolDry snap.pluginStates c3
          (st, rv.1, rv.2)
        else
          (st, r.1, false)
    | none => (st, c, false)

/-- `delete_session` (src/tools/session_tools.py lines 653-708).  Session
branch: refuse to delete the active session, else remove the record.
Snapshot branch: remove the snapshot directory from disk, then execute
`del self.snapshots[snapshot_id]` — but `snapshot_id` is an unbound local
name (the parameter is `session_id`), so a `NameError` is raised and the
outer handler returns a failure *without* removing the record.  Returns
the new state, the success flag, and the error message. -/
def delete_session (st : SessionState) (sid : String) :
    SessionState × Bool × String :=
  match dlookup st.sessions sid with
  | some _ =>
      if st.activeSession = some sid then
        (st, false, "Cannot delete active session")
      else
        ({ st with sessions := dremove st.sessions sid }, true, "")
  | none =>
      match dlookup st.snapshots sid with
      | some snap =>
          let fs2 := if snap.dir ∈ st.fs then st.fs.erase snap.dir else st.fs
          ({ st with fs := fs2 }, false, "name snapshot_id is not defined")
      | none =>
          (st, false, "Session not found: " ++ sid)

/-! ## Concrete states used by witnesses and counterexamples -/

/-- A small controller: plugins 0 and 1 present, one parameter each, with
the `IS_AUTOMATABLE` hint bit (0x100) set on every parameter. -/
def testController : Controller :=
  { plugins := [(0, PluginRec.mk "EQ" true 1 1 []),
                (1, PluginRec.mk "Comp" true 1 1 [])],
    connections := [],
    hostParams := fun _ => 0,
    hostCount := 2,
    hostInfo := fun i =>
      if i = 0 then some (PlugInfo.mk "EQ" 2)
      else if i = 1 then some (PlugInfo.mk "Comp" 4) else none,
    hostParamCount := fun _ => 1,
    hostHints := fun _ => 256,
    hostMin := fun _ => 0,
    hostMax := fun _ => 1,
    hostHasSetVolume := false,
    hostHasSetDrywet := false,
    calls := [] }

/-- A session store holding one snapshot `"snap1"` whose directory exists
on disk. -/
def testSessionState : SessionState :=
  { sessions := [],
    snapshots := [("snap1",
      Snapshot.mk "mix A" "sess1" "snapshots/snap1/mix A.carxp"
        "snapshots/snap1" [])],
    activeSession := none,
    fs := ["snapshots/snap1"] }

/-- A host image whose load succeeds and reports the same plugin layout as
`testController`, but with every parameter value 5 (so a restore visibly
rewrites it). -/
def testImage : HostImage :=
  { loadOk := true,
    params := fun _ => 5,
    count := 2,
    info := testController.hostInfo,
    paramCount := fun _ => 1,
    hints := fun _ => 256,
    minV := fun _ => 0,
    maxV := fun _ => 1 }

/-- The snapshot `create_snapshot` builds from `testController` under id
`"snapX"`. -/
def testSnap : Snapshot :=
  Snapshot.mk "mix B" "sess1" "snapshots/snapX/mix B.carxp"
    "snapshots/snapX" (capturePluginStates testController)

/-- A session store holding `testSnap` under id `"snapX"`. -/
def testSnapState : SessionState :=
  { sessions := [],
    snapshots := [("snapX", testSnap)],
    activeSession := none,
    fs := ["snapshots/snapX"] }

theorem batchLoop_length (bs : ℕ) (hbs : 1 ≤ bs) (timeout : ℚ) :
    ∀ ops : List (BlockingOp V), (batchLoop bs timeout ops).length = ops.length
  | [] => by simp [batchLoop]
  | op :: rest => by
      rw [batchLoop]
      have ih := batchLoop_length bs hbs timeout (rest.drop (bs - 1))
      by_cases h : batchDuration (op :: rest.take (bs - 1)) ≤ timeout <;>
        simp [h, executeBatch, ih, List.length_drop, List.length_take] <;>
        omega
termination_by ops => ops.length
decreasing_by
  simp [List.length_drop]
  omega

theorem take_eq_cons_take (op : BlockingOp V) (rest : List (BlockingOp V))
    (bs : ℕ) (hbs : 1 ≤ bs) :
    (op :: rest).take bs = op :: rest.take (bs - 1) := by
  cases bs with
  | zero => omega
  | succ n => simp [List.take_cons]

theorem drop_eq_cons_drop (op : BlockingOp V) (rest : List (BlockingOp V))
    (bs : ℕ) (hbs : 1 ≤ bs) :
    (op :: rest).drop bs = rest.drop (bs - 1) := by
  cases bs with
  | zero => omega
  | succ n => simp

/-- The chunk containing slot `i`, seen from the list with its first batch
removed: removing one batch shifts the slot index down by `bs`. -/
theorem chunkOf_drop (ops : List (BlockingOp V)) (bs i : ℕ) (hbs : 1 ≤ bs)
    (hi : bs ≤ i) :
    chunkOf (ops.drop bs) bs (i - bs) = chunkOf ops bs i := by
  unfold chunkOf
  rw [List.drop_drop]
  have hdiv : i / bs = (i - bs) / bs + 1 := Nat.div_eq_sub_div hbs hi
  have harith : bs + bs * ((i - bs) / bs) = bs * (i / bs) := by
    rw [hdiv, Nat.mul_succ]
    omega
  rw [harith]

/-- Exact description of every output slot of the batching loop: slot `i`
is `none` when the batch containing it overruns the shared budget, and the
operation's own result otherwise. -/
theorem batchLoop_getElem (bs : ℕ) (hbs : 1 ≤ bs) (timeout : ℚ) :
    ∀ (ops : List (BlockingOp V)) (i : ℕ),
      (batchLoop bs timeout ops)[i]? =
        Option.map
          (fun op =>
            if timeout < batchDuration (chunkOf ops bs i) then none
            else op.result)
          ops[i]?
  | [], i => by simp [batchLoop]
  | op :: rest, i => by
      rw [batchLoop]
      have hbatch : (op :: rest).take bs = op :: rest.take (bs - 1) :=
        take_eq_cons_take op rest bs hbs
      have hseglen :
          (if batchDuration (op :: rest.take (bs - 1)) ≤ timeout
           then executeBatch (op :: rest.take (bs - 1))
           else List.replicate (op :: rest.take (bs - 1)).length none).length =
            (op :: rest.take (bs - 1)).length := by
        by_cases hd : batchDuration (op :: rest.take (bs - 1)) ≤ timeout <;>
          simp [hd, executeBatch]
      by_cases hi : i < bs
      · -- the slot lies in the first batch
        have hdiv : i / bs = 0 := Nat.div_eq_of_lt hi
        have hchunk : chunkOf (op :: rest) bs i = op :: rest.take (bs - 1) := by
          unfold chunkOf
          rw [hdiv, Nat.mul_zero, List.drop_zero, hbatch]
        have htake : (op :: rest.take (bs - 1))[i]? = (op :: rest)[i]? := by
          rw [← hbatch, List.getElem?_take, if_pos hi]
        rw [List.getElem?_append, hseglen]
        by_cases hlt : i < (op :: rest.take (bs - 1)).length
        · rw [if_pos hlt]
          by_cases hd : batchDuration (op :: rest.take (bs - 1)) ≤ timeout
          · rw [if_pos hd]
            unfold executeBatch
            rw [List.getElem?_map, htake]
            rw [hchunk]
            simp only [not_lt.mpr hd, if_false]
          · rw [if_neg hd]
            rw [List.getElem?_replicate, if_pos hlt]
            rw [hchunk]
            have hiops : i < (op :: rest).length := by
              rw [← hbatch] at hlt
              simp [List.length_take] at hlt
              simp
              omega
            rw [List.getElem?_eq_getElem hiops]
            simp [lt_of_not_le hd]
        · -- slot beyond the whole input: both sides are `none`
          rw [if_neg hlt]
          have hiops : ¬ i < (op :: rest).length := by
            intro hcon
            apply hlt
            rw [← hbatch]
            simp [List.length_take]
            simp at hcon
            omega
          have h1 : (op :: rest)[i]? = none := List.getElem?_eq_none (by omega)
          have h2 : (batchLoop bs timeout (rest.drop (bs - 1)))[i -
              (op :: rest.take (bs - 1)).length]? = none := by
            apply List.getElem?_eq_none
            rw [batchLoop_length bs hbs]
            simp [List.length_drop, List.length_take] at hlt ⊢
            omega
          rw [h1, h2]
          rfl
      · -- the slot lies in a later batch: recurse on the remaining list
        have hblen : (op :: rest.take (bs - 1)).length = min bs (rest.length + 1) := by
          simp [List.length_take]
          omega
        by_cases hiops : i < (op :: rest).length
        · have hblen' : (op :: rest.take (bs - 1)).length = bs := by
            rw [hblen]
            simp at hiops
            omega
          have hge : ¬ i < (op :: rest.take (bs - 1)).length := by
            rw [hblen']; omega
          rw [List.getElem?_append, hseglen, if_neg hge, hblen']
          rw [batchLoop_getElem bs hbs timeout (rest.drop (bs - 1)) (i - bs)]
          have hdrop : rest.drop (bs - 1) = (op :: rest).drop bs :=
            (drop_eq_cons_drop op rest bs hbs).symm
          have hchunk : chunkOf (rest.drop (bs - 1)) bs (i - bs) =
              chunkOf (op :: rest) bs i := by
            rw [hdrop]
            exact chunkOf_drop (op :: rest) bs i hbs (not_lt.mp hi)
          have hidx : (rest.drop (bs - 1))[i - bs]? = (op :: rest)[i]? := by
            rw [hdrop, List.getElem?_drop]
            have : bs + (i - bs) = i := by omega
            rw [this]
          rw [hchunk, hidx]
        · -- slot beyond the whole input: both sides are `none`
          have h1 : (op :: rest)[i]? = none := List.getElem?_eq_none (by omega)
          have h2 : (if batchDuration (op :: rest.take (bs - 1)) ≤ timeout
              then executeBatch (op :: rest.take (bs - 1))
              else List.replicate
                (op :: rest.take (bs - 1)).length none).length ≤ i := by
            rw [hseglen, hblen]
            simp at hiops
            omega
          rw [List.getElem?_append_right h2, h1]
          rw [hseglen]
          have h3 : (batchLoop bs timeout (rest.drop (bs - 1)))[i -
              (op :: rest.take (bs - 1)).length]? = none := by
            apply List.getElem?_eq_none
            rw [batchLoop_length bs hbs]
            simp [List.length_drop, List.length_take]
            simp at hiops
            omega
          rw [h3]
          rfl
termination_by ops => ops.length
decreasing_by
  simp [List.length_drop]
  omega

/-! ## Claims C1, C5, C2 -/

/-- C1: for every `batch_size` at least 1 and every ordered operation list
(including operations that raise), `batch_blocking` returns a list with one
slot per input operation, in input order, each slot holding either the
operation's own result or `none`; a per-operation failure never disturbs the
other slots.  (Amended from the claim: for `batch_size = 0` the Python
`range` call raises `ValueError`, and for negative `batch_size` the loop
body never runs and the empty list is returned, so the claim's "for every
batch_size" does not hold below 1.) -/
theorem batch_output_len_and_order (ops : List (BlockingOp ℚ))
    (batchSize : ℤ) (hbs : 1 ≤ batchSize) (timeout : ℚ) :
    ∃ res : List (Option ℚ), batch_blocking ops batchSize timeout = some res ∧
      res.length = ops.length ∧
      ∀ (i : ℕ) (h : i < ops.length),
        res[i]? = some none ∨ res[i]? = some (ops.get ⟨i, h⟩).result := by
  have h0 : ¬ batchSize = 0 := by omega
  have h1 : ¬ batchSize < 0 := by omega
  have hbs' : 1 ≤ batchSize.toNat := by omega
  refine ⟨batchLoop batchSize.toNat timeout ops, ?_, ?_, ?_⟩
  · unfold batch_blocking
    rw [if_neg h0, if_neg h1]
  · exact batchLoop_length batchSize.toNat hbs' timeout ops
  · intro i h
    rw [batchLoop_getElem batchSize.toNat hbs' timeout ops i]
    rw [List.getElem?_eq_getElem h]
    by_cases hc :
        timeout < batchDuration (chunkOf ops batchSize.toNat i)
    · left
      simp [hc]
    · right
      simp [hc]

/-- Witness for `batch_output_len_and_order` at `batch_size = 1` on a batch
whose second operation raises. -/
theorem batch_output_len_and_order_witness :
    (1 : ℤ) ≤ 1 ∧
    ∃ res : List (Option ℚ),
      batch_blocking [⟨1, some (5 : ℚ)⟩, ⟨1, none⟩] 1 30 = some res ∧
      res.length = [⟨1, some (5 : ℚ)⟩, (⟨1, none⟩ : BlockingOp ℚ)].length ∧
      ∀ (i : ℕ) (h : i < [⟨1, some (5 : ℚ)⟩, (⟨1, none⟩ : BlockingOp ℚ)].length),
        res[i]? = some none ∨
        res[i]? = some ([⟨1, some (5 : ℚ)⟩,
          (⟨1, none⟩ : BlockingOp ℚ)].get ⟨i, h⟩).result :=
  ⟨by norm_num,
   batch_output_len_and_order [⟨1, some (5 : ℚ)⟩, ⟨1, none⟩] 1 (by norm_num) 30⟩

/-- C1 counterexample: with `batch_size = -1` the `range(0, 1, -1)` loop of
`batch_blocking` never runs, so one input operation produces an output of
length 0 instead of 1. -/
theorem batch_negative_size_counterexample :
    batch_blocking [⟨1, some (5 : ℚ)⟩] (-1) 30 = some [] ∧
    ([] : List (Option ℚ)).length ≠
      [(⟨1, some (5 : ℚ)⟩ : BlockingOp ℚ)].length := by
  constructor
  · unfold batch_blocking
    norm_num
  · simp

/-- C5: exact slot-level description of `batch_blocking` for
`batch_size ≥ 1`: a slot is `none` exactly when its own operation raised or
the batch containing it exceeded the shared `timeout_per_batch` budget, and
otherwise carries the operation's result; a timed-out batch never disturbs
later batches, which are processed normally.  (Amended from the claim: when
a batch times out, `asyncio.wait_for` discards the whole `execute_batch`
result list, so even operations that had already completed inside that
batch resolve to `none` — they do not keep their results.) -/
theorem batch_timeout_slots (ops : List (BlockingOp ℚ)) (batchSize : ℤ)
    (hbs : 1 ≤ batchSize) (timeout : ℚ) :
    ∃ res : List (Option ℚ), batch_blocking ops batchSize timeout = some res ∧
      res.length = ops.length ∧
      ∀ (i : ℕ) (h : i < ops.length),
        res[i]? = some
          (if timeout < batchDuration (chunkOf ops batchSize.toNat i)
           then none
           else (ops.get ⟨i, h⟩).result) := by
  have h0 : ¬ batchSize = 0 := by omega
  have h1 : ¬ batchSize < 0 := by omega
  have hbs' : 1 ≤ batchSize.toNat := by omega
  refine ⟨batchLoop batchSize.toNat timeout ops, ?_, ?_, ?_⟩
  · unfold batch_blocking
    rw [if_neg h0, if_neg h1]
  · exact batchLoop_length batchSize.toNat hbs' timeout ops
  · intro i h
    rw [batchLoop_getElem batchSize.toNat hbs' timeout ops i]
    rw [List.getElem?_eq_getElem h]
    rfl

/-- Witness for `batch_timeout_slots`: two batches of size 1, the first
overruns the 10-second budget and resolves to `none`, the second completes
and keeps its result. -/
theorem batch_timeout_slots_witness :
    (1 : ℤ) ≤ 1 ∧
    ∃ res : List (Option ℚ),
      batch_blocking [⟨100, some (1 : ℚ)⟩, ⟨1, some 2⟩] 1 10 = some res ∧
      res.length = [⟨100, some (1 : ℚ)⟩, (⟨1, some 2⟩ : BlockingOp ℚ)].length ∧
      ∀ (i : ℕ)
        (h : i < [⟨100, some (1 : ℚ)⟩, (⟨1, some 2⟩ : BlockingOp ℚ)].length),
        res[i]? = some
          (if (10 : ℚ) < batchDuration
              (chunkOf [⟨100, some (1 : ℚ)⟩, ⟨1, some 2⟩] (1 : ℤ).toNat i)
           then none
           else ([⟨100, some (1 : ℚ)⟩,
             (⟨1, some 2⟩ : BlockingOp ℚ)].get ⟨i, h⟩).result) :=
  ⟨by norm_num,
   batch_timeout_slots [⟨100, some (1 : ℚ)⟩, ⟨1, some 2⟩] 1 (by norm_num) 10⟩

/-- C5 counterexample: in a single batch `[1s op, 100s op]` with a
10-second budget, the first operation completes at wall-clock time 1 (well
within the budget) and produced `some 1`, yet the batch timeout makes its
output slot `none` as well — completed operations do not keep their
results. -/
theorem batch_timeout_discards_completed_counterexample :
    batch_blocking [⟨1, some (1 : ℚ)⟩, ⟨100, some 2⟩] 2 10 =
      some [none, none] ∧
    completionTime [⟨1, some (1 : ℚ)⟩, ⟨100, some 2⟩] 0 ≤ 10 ∧
    (⟨1, some (1 : ℚ)⟩ : BlockingOp ℚ).result = some 1 := by
  refine ⟨?_, by norm_num [completionTime, batchDuration], rfl⟩
  have h2 : ((2 : ℤ)).toNat = 2 := rfl
  unfold batch_blocking
  norm_num [h2]
  rw [batchLoop]
  norm_num [batchDuration]
  rw [batchLoop]
  rfl

/-- C2 counterexample: a callable that raises `ValueError("boom")` is
re-raised unchanged by `run_blocking` (`except Exception as e: ... raise`);
it is not converted to an `OperationFailure`, diverging from the
spec-modelled bridge `run_blocking_specified`. -/
theorem run_blocking_reraise_counterexample :
    run_blocking ⟨1, Except.error ⟨"ValueError", "boom"⟩⟩ 30 "load project" =
      (Except.error ⟨"ValueError", "boom"⟩ : Except PyExc ℚ) ∧
    run_blocking (V := ℚ) ⟨1, Except.error ⟨"ValueError", "boom"⟩⟩ 30
        "load project" ≠
      run_blocking_specified ⟨1, Except.error ⟨"ValueError", "boom"⟩⟩ 30
        "load project" := by
  constructor
  · norm_num [run_blocking]
  · norm_num [run_blocking, run_blocking_specified]
    decide

/-- C2: any exception raised by the underlying callable within the timeout
budget is caught, logged, and delivered to the immediate caller as a failed
(`Except.error`) result — but re-raised *unchanged* (same exception class
and message), not converted to a typed `OperationFailure`.  (Amended from
the claim, which asserted the `OperationFailure` conversion.) -/
theorem run_blocking_delivers_failure (f : BlockingCall ℚ) (timeout : ℚ)
    (d : String) (e : PyExc) (hout : f.outcome = Except.error e)
    (hdur : f.duration ≤ timeout) :
    run_blocking f timeout d = Except.error e := by
  unfold run_blocking
  rw [if_neg (not_lt.mpr hdur), hout]

/-- Witness for `run_blocking_delivers_failure` on a concrete raising
callable. -/
theorem run_blocking_delivers_failure_witness :
    (⟨1, Except.error ⟨"RuntimeError", "engine gone"⟩⟩ :
        BlockingCall ℚ).outcome =
      Except.error ⟨"RuntimeError", "engine gone"⟩ ∧
    (⟨1, Except.error ⟨"RuntimeError", "engine gone"⟩⟩ :
        BlockingCall ℚ).duration ≤ 30 ∧
    run_blocking (V := ℚ) ⟨1, Except.error ⟨"RuntimeError", "engine gone"⟩⟩
        30 "set parameter" =
      Except.error ⟨"RuntimeError", "engine gone"⟩ :=
  ⟨rfl, by norm_num,
   run_blocking_delivers_failure
     ⟨1, Except.error ⟨"RuntimeError", "engine gone"⟩⟩ 30 "set parameter"
     ⟨"RuntimeError", "engine gone"⟩ rfl (by norm_num)⟩

/-- C3 counterexample: on the three-cycle `0→1, 1→2, 2→0` the code returns
the single back-edge string `"2 -> 0"` — one entry, not the three plugin
ids `{0, 1, 2}` the claim promises. -/
theorem detect_cycles_counterexample :
    detect_feedback_loops [(0, 1), (1, 2), (2, 0)] = ["2 -> 0"] ∧
    (detect_feedback_loops [(0, 1), (1, 2), (2, 0)]).length ≠ 3 := by
  constructor
  · rfl
  · decide

/-- C3: `_detect_feedback_loops` returns a list of back-edge description
strings, one for the first back edge found from each traversal root that
reaches a cycle, not the set of plugin ids on the cycle: on `0→1, 1→2,
2→0` it returns `["2 -> 0"]`, and on the acyclic `0→1, 1→2` it returns
`[]`.  (Amended from the claim, which expected the full participant set
`{A, B, C}`; the empty-result half of the claim does hold.) -/
theorem detect_cycles_backedges :
    detect_feedback_loops [(0, 1), (1, 2), (2, 0)] = ["2 -> 0"] ∧
    detect_feedback_loops [(0, 1), (1, 2)] = [] := by
  constructor
  · rfl
  · rfl

/-! ## Dictionary lemmas -/

theorem dlookup_nil [BEq K] (k : K) : dlookup ([] : List (K × A)) k = none :=
  rfl

theorem dlookup_cons [BEq K] (p : K × A) (rest : List (K × A)) (k : K) :
    dlookup (p :: rest) k =
      if p.1 == k then some p.2 else dlookup rest k := by
  unfold dlookup
  cases hp : (p.1 == k) with
  | true => simp [List.find?_cons, hp]
  | false => simp [List.find?_cons, hp]

theorem dlookup_dinsert_self [BEq K] [LawfulBEq K] (m : List (K × A))
    (k : K) (v : A) : dlookup (dinsert m k v) k = some v := by
  unfold dinsert
  by_cases h : (dlookup m k).isSome
  · rw [if_pos h]
    induction m with
    | nil => simp [dlookup] at h
    | cons p rest ih =>
        rw [dlookup_cons] at h
        by_cases hp : (p.1 == k) = true
        · simp only [List.map_cons, if_pos hp, dlookup_cons]
          simp
        · rw [if_neg hp] at h
          simp only [List.map_cons, if_neg hp, dlookup_cons]
          exact ih h
  · rw [if_neg h]
    induction m with
    | nil =>
        rw [List.nil_append, dlookup_cons]
        simp
    | cons p rest ih =>
        rw [dlookup_cons] at h
        by_cases hp : (p.1 == k) = true
        · rw [if_pos hp] at h
          simp at h
        · rw [if_neg hp] at h
          rw [List.cons_append, dlookup_cons, if_neg hp]
          exact ih h

theorem dlookup_dinsert_other [BEq K] [LawfulBEq K] (m : List (K × A))
    (k k' : K) (v : A) (hne : k' ≠ k) :
    dlookup (dinsert m k v) k' = dlookup m k' := by
  have hbeq : (k == k') = false := by
    rw [beq_eq_false_iff_ne]
    exact fun hc => hne hc.symm
  unfold dinsert
  by_cases h : (dlookup m k).isSome
  · rw [if_pos h]
    clear h
    induction m with
    | nil => rfl
    | cons p rest ih =>
        by_cases hp : (p.1 == k) = true
        · have hp' : (p.1 == k') = false := by
            rw [beq_eq_false_iff_ne]
            intro hc
            apply hne
            rw [← hc]
            exact eq_of_beq hp
          simp only [List.map_cons, if_pos hp, dlookup_cons, hbeq, hp']
          simp [ih]
        · simp only [List.map_cons, if_neg hp, dlookup_cons]
          by_cases hq : (p.1 == k') = true
          · simp [hq]
          · simp only [hq, if_false]
            simp at hq
            simp [hq, ih]
  · rw [if_neg h]
    unfold dlookup
    rw [List.find?_append]
    have hlast : List.find? (fun p => p.1 == k') [(k, v)] = none := by
      rw [List.find?_cons]
      simp [hbeq]
    rw [hlast, Option.or_none]

/-! ## Controller step lemmas -/

theorem set_parameter_isSome (c : Controller) (pid param : ℕ) (v : ℚ)
    (q : ℕ) :
    (dlookup (c.set_parameter pid param v).plugins q).isSome =
      (dlookup c.plugins q).isSome := by
  unfold Controller.set_parameter
  cases h : dlookup c.plugins pid with
  | none => rfl
  | some r =>
      simp only []
      by_cases hq : q = pid
      · subst hq
        rw [dlookup_dinsert_self, h]
        rfl
      · rw [dlookup_dinsert_other _ _ _ _ hq]

theorem set_parameter_calls_present (c : Controller) (pid param : ℕ)
    (v : ℚ) (h : (dlookup c.plugins pid).isSome) :
    (c.set_parameter pid param v).calls =
      c.calls ++ [EngineCall.setParam pid param v] := by
  obtain ⟨r, hr⟩ := Option.isSome_iff_exists.mp h
  unfold Controller.set_parameter
  rw [hr]

theorem set_parameter_hostParams_self (c : Controller) (pid param : ℕ)
    (v : ℚ) (h : (dlookup c.plugins pid).isSome) :
    (c.set_parameter pid param v).hostParams (pid, param) = v := by
  obtain ⟨r, hr⟩ := Option.isSome_iff_exists.mp h
  unfold Controller.set_parameter
  rw [hr]
  simp

theorem set_parameter_hostParams_other (c : Controller) (pid param : ℕ)
    (v : ℚ) (key : ℕ × ℕ) (hk : key ≠ (pid, param)) :
    (c.set_parameter pid param v).hostParams key = c.hostParams key := by
  unfold Controller.set_parameter
  cases h : dlookup c.plugins pid with
  | none => rfl
  | some r => simp [hk]

theorem set_plugin_active_hostParams (c : Controller) (pid : ℕ) (a : Bool) :
    (c.set_plugin_active pid a).hostParams = c.hostParams := by
  unfold Controller.set_plugin_active
  cases h : dlookup c.plugins pid <;> rfl

theorem set_plugin_active_isSome (c : Controller) (pid : ℕ) (a : Bool)
    (q : ℕ) :
    (dlookup (c.set_plugin_active pid a).plugins q).isSome =
      (dlookup c.plugins q).isSome := by
  unfold Controller.set_plugin_active
  cases h : dlookup c.plugins pid with
  | none => rfl
  | some r =>
      simp only []
      by_cases hq : q = pid
      · subst hq
        rw [dlookup_dinsert_self, h]
        rfl
      · rw [dlookup_dinsert_other _ _ _ _ hq]

theorem setVolumeStep_props (c : Controller) (pid : ℕ) (vol : ℚ)
    (c1 : Controller) (h : setVolumeStep c pid vol = some c1) :
    c1.hostParams = c.hostParams ∧
    ∀ q, (dlookup c1.plugins q).isSome = (dlookup c.plugins q).isSome := by
  unfold setVolumeStep at h
  by_cases hv : c.hostHasSetVolume
  · rw [if_pos hv] at h
    cases h
    exact ⟨rfl, fun q => rfl⟩
  · rw [if_neg hv] at h
    cases hm : dlookup c.plugins pid with
    | none => rw [hm] at h; cases h
    | some r =>
        rw [hm] at h
        cases h
        refine ⟨rfl, fun q => ?_⟩
        by_cases hq : q = pid
        · subst hq
          rw [dlookup_dinsert_self, hm]
          rfl
        · rw [dlookup_dinsert_other _ _ _ _ hq]

theorem setDrywetStep_props (c : Controller) (pid : ℕ) (dw : ℚ)
    (c1 : Controller) (h : setDrywetStep c pid dw = some c1) :
    c1.hostParams = c.hostParams ∧
    ∀ q, (dlookup c1.plugins q).isSome = (dlookup c.plugins q).isSome := by
  unfold setDrywetStep at h
  by_cases hv : c.hostHasSetDrywet
  · rw [if_pos hv] at h
    cases h
    exact ⟨rfl, fun q => rfl⟩
  · rw [if_neg hv] at h
    cases hm : dlookup c.plugins pid with
    | none => rw [hm] at h; cases h
    | some r =>
        rw [hm] at h
        cases h
        refine ⟨rfl, fun q => ?_⟩
        by_cases hq : q = pid
        · subst hq
          rw [dlookup_dinsert_self, hm]
          rfl
        · rw [dlookup_dinsert_other _ _ _ _ hq]

theorem restoreVolDry_props :
    ∀ (states : List PluginState) (c : Controller),
      ((restoreVolDry states c).1).hostParams = c.hostParams ∧
      ∀ q, (dlookup ((restoreVolDry states c).1).plugins q).isSome =
        (dlookup c.plugins q).isSome
  | [], c => ⟨rfl, fun q => rfl⟩
  | ps :: rest, c => by
      rw [restoreVolDry]
      cases hv : setVolumeStep c ps.id ps.volume with
      | none => exact ⟨rfl, fun q => rfl⟩
      | some c1 =>
          dsimp only
          have hp1 := setVolumeStep_props c ps.id ps.volume c1 hv
          cases hd : setDrywetStep c1 ps.id ps.drywet with
          | none =>
              exact ⟨hp1.1, hp1.2⟩
          | some c2 =>
              dsimp only
              have hp2 := setDrywetStep_props c1 ps.id ps.drywet c2 hd
              have ih := restoreVolDry_props rest c2
              refine ⟨?_, fun q => ?_⟩
              · rw [ih.1, hp2.1, hp1.1]
              · rw [ih.2 q, hp2.2 q, hp1.2 q]

/-! ## Fold lemmas for automation and restore -/

theorem foldl_set_isSome (pid param q : ℕ) (g : ℕ → ℚ) :
    ∀ (l : List ℕ) (c : Controller),
      (dlookup ((l.foldl
        (fun st i => st.set_parameter pid param (g i)) c)).plugins q).isSome =
        (dlookup c.plugins q).isSome
  | [], c => rfl
  | i :: l, c => by
      rw [List.foldl_cons]
      rw [foldl_set_isSome pid param q g l]
      exact set_parameter_isSome c pid param (g i) q

theorem foldl_set_calls_length (pid param : ℕ) (g : ℕ → ℚ) :
    ∀ (l : List ℕ) (c : Controller), (dlookup c.plugins pid).isSome →
      ((l.foldl
        (fun st i => st.set_parameter pid param (g i)) c)).calls.length =
        c.calls.length + l.length
  | [], c, _ => rfl
  | i :: l, c, h => by
      rw [List.foldl_cons]
      have h1 : (dlookup (c.set_parameter pid param (g i)).plugins pid).isSome
          = true := by
        rw [set_parameter_isSome]
        exact h
      rw [foldl_set_calls_length pid param g l _ h1]
      rw [set_parameter_calls_present c pid param (g i) h]
      simp
      omega

theorem foldl_setp_isSome (pid q : ℕ) :
    ∀ (kvs : List (ℕ × ℚ)) (c : Controller),
      (dlookup ((kvs.foldl
        (fun c2 pv => c2.set_parameter pid pv.1 pv.2) c)).plugins q).isSome =
        (dlookup c.plugins q).isSome
  | [], c => rfl
  | kv :: kvs, c => by
      rw [List.foldl_cons]
      rw [foldl_setp_isSome pid q kvs]
      exact set_parameter_isSome c pid kv.1 kv.2 q

theorem foldl_setp_hostParams_other (pid : ℕ) :
    ∀ (kvs : List (ℕ × ℚ)) (c : Controller) (key : ℕ × ℕ),
      (key.1 ≠ pid ∨ key.2 ∉ kvs.map Prod.fst) →
      ((kvs.foldl
        (fun c2 pv => c2.set_parameter pid pv.1 pv.2) c)).hostParams key =
        c.hostParams key
  | [], c, key, _ => rfl
  | kv :: kvs, c, key, h => by
      rw [List.foldl_cons]
      have hkey : key ≠ (pid, kv.1) := by
        intro hc
        subst hc
        rcases h with h | h
        · exact h rfl
        · simp at h
      have htail : key.1 ≠ pid ∨ key.2 ∉ kvs.map Prod.fst := by
        rcases h with h | h
        · exact Or.inl h
        · right
          intro hc
          apply h
          simp at hc ⊢
          exact Or.inr hc
      rw [foldl_setp_hostParams_other pid kvs _ key htail]
      exact set_parameter_hostParams_other c pid kv.1 kv.2 key hkey

theorem foldl_setp_hostParams_self (pid : ℕ) :
    ∀ (kvs : List (ℕ × ℚ)) (c : Controller),
      (dlookup c.plugins pid).isSome → (kvs.map Prod.fst).Nodup →
      ∀ p v, (p, v) ∈ kvs →
      ((kvs.foldl
        (fun c2 pv => c2.set_parameter pid pv.1 pv.2) c)).hostParams
          (pid, p) = v
  | [], c, _, _, p, v, hmem => by simp at hmem
  | kv :: kvs, c, hpres, hnodup, p, v, hmem => by
      rw [List.foldl_cons]
      rw [List.map_cons, List.nodup_cons] at hnodup
      rcases List.mem_cons.mp hmem with heq | htail
      · have hp : p = kv.1 := congrArg Prod.fst heq
        have hv : v = kv.2 := congrArg Prod.snd heq
        subst hp
        subst hv
        rw [foldl_setp_hostParams_other pid kvs _ (pid, kv.1)
          (Or.inr hnodup.1)]
        exact set_parameter_hostParams_self c pid kv.1 kv.2 hpres
      · have hpres1 : (dlookup
            (c.set_parameter pid kv.1 kv.2).plugins pid).isSome = true := by
          rw [set_parameter_isSome]
          exact hpres
        exact foldl_setp_hostParams_self pid kvs _ hpres1 hnodup.2 p v htail

/-! ## Restore and capture lemmas -/

theorem restoreParamOps_cons (ps : PluginState) (rest : List PluginState)
    (c : Controller) :
    restoreParamOps (ps :: rest) c =
      restoreParamOps rest
        (ps.parameters.foldl
          (fun c2 pv => c2.set_parameter ps.id pv.1 pv.2) c) := rfl

theorem restoreParamOps_isSome :
    ∀ (states : List PluginState) (c : Controller) (q : ℕ),
      (dlookup (restoreParamOps states c).plugins q).isSome =
        (dlookup c.plugins q).isSome
  | [], _, _ => rfl
  | ps :: rest, c, q => by
      rw [restoreParamOps_cons]
      rw [restoreParamOps_isSome rest _ q]
      rw [foldl_setp_isSome]

theorem restoreParamOps_hostParams_other :
    ∀ (states : List PluginState) (c : Controller) (key : ℕ × ℕ),
      (∀ ps ∈ states, key.1 ≠ ps.id) →
      (restoreParamOps states c).hostParams key = c.hostParams key
  | [], _, _, _ => rfl
  | ps :: rest, c, key, h => by
      rw [restoreParamOps_cons]
      rw [restoreParamOps_hostParams_other rest _ key
        (fun q hq => h q (List.mem_cons_of_mem ps hq))]
      exact foldl_setp_hostParams_other ps.id ps.parameters c key
        (Or.inl (h ps (List.mem_cons_self ps rest)))

theorem restoreParamOps_hostParams_self :
    ∀ (states : List PluginState) (c : Controller),
      (∀ ps ∈ states, (dlookup c.plugins ps.id).isSome) →
      List.Pairwise (fun a b => a.id ≠ b.id) states →
      (∀ ps ∈ states, (ps.parameters.map Prod.fst).Nodup) →
      ∀ ps, ps ∈ states → ∀ p v, (p, v) ∈ ps.parameters →
        (restoreParamOps states c).hostParams (ps.id, p) = v
  | [], _, _, _, _, _, hps, _, _, _ => by simp at hps
  | ps0 :: rest, c, hpres, hpair, hkeys, ps, hps, p, v, hpv => by
      rw [restoreParamOps_cons]
      rw [List.pairwise_cons] at hpair
      rcases List.mem_cons.mp hps with heq | htail
      · subst heq
        rw [restoreParamOps_hostParams_other rest _ (ps.id, p)
          (fun q hq => hpair.1 q hq)]
        exact foldl_setp_hostParams_self ps.id ps.parameters c
          (hpres ps (List.mem_cons_self ps rest))
          (hkeys ps (List.mem_cons_self ps rest)) p v hpv
      · have hpres1 : ∀ q ∈ rest,
            (dlookup ((ps0.parameters.foldl
              (fun c2 pv => c2.set_parameter ps0.id pv.1 pv.2) c)).plugins
              q.id).isSome = true := by
          intro q hq
          rw [foldl_setp_isSome]
          exact hpres q (List.mem_cons_of_mem ps0 hq)
        exact restoreParamOps_hostParams_self rest _ hpres1 hpair.2
          (fun q hq => hkeys q (List.mem_cons_of_mem ps0 hq)) ps htail p v hpv

theorem restoreActiveOps_hostParams :
    ∀ (states : List PluginState) (c : Controller),
      (restoreActiveOps states c).hostParams = c.hostParams
  | [], _ => rfl
  | ps :: rest, c => by
      have hcons : restoreActiveOps (ps :: rest) c =
          restoreActiveOps rest (c.set_plugin_active ps.id ps.active) := rfl
      rw [hcons, restoreActiveOps_hostParams rest _,
        set_plugin_active_hostParams]

theorem restoreActiveOps_isSome :
    ∀ (states : List PluginState) (c : Controller) (q : ℕ),
      (dlookup (restoreActiveOps states c).plugins q).isSome =
        (dlookup c.plugins q).isSome
  | [], _, _ => rfl
  | ps :: rest, c, q => by
      have hcons : restoreActiveOps (ps :: rest) c =
          restoreActiveOps rest (c.set_plugin_active ps.id ps.active) := rfl
      rw [hcons, restoreActiveOps_isSome rest _ q, set_plugin_active_isSome]

theorem capture_ids_pairwise (c : Controller) :
    List.Pairwise (fun a b => a.id ≠ b.id) (capturePluginStates c) := by
  unfold capturePluginStates
  rw [List.pairwise_filterMap]
  apply List.Pairwise.imp ?_ (List.pairwise_lt_range c.hostCount)
  intro a b hab x hx y hy
  cases ha : c.hostInfo a with
  | none => rw [ha] at hx; simp at hx
  | some nfa =>
      rw [ha] at hx
      simp at hx
      cases hb : c.hostInfo b with
      | none => rw [hb] at hy; simp at hy
      | some nfb =>
          rw [hb] at hy
          simp at hy
          rw [← hx, ← hy]
          simp
          omega

theorem capture_params_nodup (c : Controller) :
    ∀ ps ∈ capturePluginStates c, (ps.parameters.map Prod.fst).Nodup := by
  intro ps hps
  unfold capturePluginStates at hps
  rcases List.mem_filterMap.mp hps with ⟨i, _, hfi⟩
  cases hinfo : c.hostInfo i with
  | none => rw [hinfo] at hfi; simp at hfi
  | some nfo =>
      rw [hinfo] at hfi
      simp at hfi
      have hpar : ps.parameters = (List.range (c.hostParamCount i)).map
          (fun p => (p, c.get_parameter i p)) := by
        rw [← hfi]
      rw [hpar, List.map_map]
      have hid : (Prod.fst ∘ fun p => ((p : ℕ), c.get_parameter i p)) =
          id := funext fun p => rfl
      rw [hid, List.map_id]
      exact List.nodup_range _

/-! ## Claims C10, C9, C8, C6, C4 -/

/-- C10: at the controller's interface, `set_parameter` on a plugin id not
in `self.plugins` silently returns without issuing any host call and
without raising (the state, including the engine-call trace, is returned
unchanged), and `get_parameter` on such an id returns `0.0` instead of
failing with `NotFound`. -/
theorem controller_unknown_plugin_is_noop (c : Controller) (pid param : ℕ)
    (v : ℚ) (h : dlookup c.plugins pid = none) :
    c.set_parameter pid param v = c ∧ c.get_parameter pid param = 0 := by
  unfold Controller.set_parameter Controller.get_parameter
  rw [h]
  exact ⟨rfl, rfl⟩

/-- Witness for `controller_unknown_plugin_is_noop`: plugin id 5 is not in
`testController`. -/
theorem controller_unknown_plugin_is_noop_witness :
    dlookup testController.plugins 5 = none ∧
    (testController.set_parameter 5 0 (1 / 2) = testController ∧
     testController.get_parameter 5 0 = 0) :=
  ⟨rfl, controller_unknown_plugin_is_noop testController 5 0 (1 / 2) rfl⟩

/-- C9: whenever both plugin ids pass validation, `setup_sidechain` issues
the `connect_audio` engine call and then hits the unbound local `channels`
(`NameError`), so it always returns a failure, never stores a sidechain
record, and never rolls the engine connection back. -/
theorem setup_sidechain_never_succeeds (r : RoutingState) (c : Controller)
    (src dst scInput : ℕ) (hs : (dlookup c.plugins src).isSome)
    (hd : (dlookup c.plugins dst).isSome) :
    (setup_sidechain r c src dst scInput).2.2.1 = false ∧
    (setup_sidechain r c src dst scInput).1 = r ∧
    (setup_sidechain r c src dst scInput).2.1.connections =
      c.connections ++ [(src, 0, dst, scInput + 2)] ∧
    (setup_sidechain r c src dst scInput).2.1.calls =
      c.calls ++ [EngineCall.connect src 0 dst (scInput + 2)] := by
  obtain ⟨x, hx⟩ := Option.isSome_iff_exists.mp hs
  obtain ⟨y, hy⟩ := Option.isSome_iff_exists.mp hd
  unfold setup_sidechain
  rw [hx, hy]
  simp [Controller.connect_audio]

/-- Witness for `setup_sidechain_never_succeeds` on `testController`
(plugins 0 and 1 both present). -/
theorem setup_sidechain_never_succeeds_witness :
    (dlookup testController.plugins 0).isSome = true ∧
    (dlookup testController.plugins 1).isSome = true ∧
    ((setup_sidechain (RoutingState.mk []) testController 0 1 0).2.2.1 =
        false ∧
     (setup_sidechain (RoutingState.mk []) testController 0 1 0).1 =
        RoutingState.mk [] ∧
     (setup_sidechain
        (RoutingState.mk []) testController 0 1 0).2.1.connections =
        testController.connections ++ [(0, 0, 1, 2)] ∧
     (setup_sidechain (RoutingState.mk []) testController 0 1 0).2.1.calls =
        testController.calls ++ [EngineCall.connect 0 0 1 2]) :=
  ⟨rfl, rfl,
   setup_sidechain_never_succeeds (RoutingState.mk []) testController 0 1 0
     rfl rfl⟩

/-- C8: on `testController` — one eligible parameter, hints `0x100`
(`IS_AUTOMATABLE` set), empty exclude list — `randomize_parameters`
randomizes *nothing*: the guard `if param_info.get('hints', 0) & 0x100:
continue` skips exactly the automatable parameters (inverting its own
comment "Skip non-automatable parameters"), and no engine call is issued,
while the call still reports success.  The claim (and the code's comment)
say this parameter should have been randomized. -/
theorem randomize_skips_automatable_parameter :
    (randomize_parameters testController 0 (1 / 2) [] (fun _ => 1)).2.1 =
      [] ∧
    (randomize_parameters testController 0 (1 / 2) [] (fun _ => 1)).1.calls =
      [] ∧
    (randomize_parameters testController 0 (1 / 2) [] (fun _ => 1)).2.2 =
      true :=
  ⟨rfl, rfl, rfl⟩

/-- C6: deleting the snapshot `"snap1"` removes its directory from disk but
then raises `NameError` on the unbound `snapshot_id` in
`del self.snapshots[snapshot_id]`: the call reports failure, and the
snapshot record is still in the table (so a later restore by this id does
not fail with `NotFound` — the record is found and a load of the removed
path is attempted instead). -/
theorem delete_snapshot_record_survives :
    (delete_session testSessionState "snap1").2.1 = false ∧
    (dlookup (delete_session testSessionState "snap1").1.snapshots
      "snap1").isSome = true ∧
    "snapshots/snap1" ∉ (delete_session testSessionState "snap1").1.fs ∧
    (delete_session testSessionState "snap1").2.2 =
      "name snapshot_id is not defined" := by
  refine ⟨rfl, rfl, ?_, rfl⟩
  decide

/-- C4 counterexample: a linear automation over 30 ms (3 steps) created by
`automate_parameter` and driven to normal completion leaves its record with
`running = true` — `_run_automation` never writes the flag — contradicting
the claim that termination sets it to `false`. -/
theorem automation_completion_counterexample :
    ((dlookup (automate_parameter_completes testController [] "a1" 0 0 30
      [0, 1]).2.1 "a1").map (fun r => r.running)) = some true ∧
    (some true : Option Bool) ≠ some false := by
  exact ⟨rfl, by simp⟩

/-- C4: for every automation whose plugin id validates, starting it stores
a record with `running = true`, and the driving loop runs its
`duration_ms / 10` steps to completion — issuing exactly one engine
`set_parameter` call per step when the plugin is in the controller table —
without ever mutating the record: it stays queryable with `running` still
`true`, and no cancellation mechanism exists in the repository.  (Amended
from the claim, which said termination sets `running` to `false` and that
cancellation is observed between steps.) -/
theorem automation_completes_running_stays_true (c : Controller)
    (table : List (String × AutomationRecord)) (aid : String)
    (pid param durationMs : ℕ) (values : List ℚ)
    (hpid : pid < c.hostCount) (hmem : (dlookup c.plugins pid).isSome) :
    (automate_parameter_completes c table aid pid param durationMs
      values).2.2 = true ∧
    (dlookup (automate_parameter_completes c table aid pid param durationMs
      values).2.1 aid).map (fun r => r.running) = some true ∧
    (automate_parameter_completes c table aid pid param durationMs
      values).1.calls.length = c.calls.length + durationMs / 10 := by
  unfold automate_parameter_completes
  rw [if_pos hpid]
  dsimp only
  refine ⟨rfl, ?_, ?_⟩
  · rw [dlookup_dinsert_self]
    rfl
  · unfold run_automation_linear
    rw [foldl_set_calls_length pid param _ (List.range (durationMs / 10)) c
      hmem]
    rw [List.length_range]

/-- Witness for `automation_completes_running_stays_true` on
`testController` (plugin 0, 30 ms, keyframes 0 → 1). -/
theorem automation_completes_running_stays_true_witness :
    (0 < testController.hostCount) ∧
    (dlookup testController.plugins 0).isSome = true ∧
    ((automate_parameter_completes testController [] "a2" 0 0 30
        [0, 1]).2.2 = true ∧
     (dlookup (automate_parameter_completes testController [] "a2" 0 0 30
        [0, 1]).2.1 "a2").map (fun r => r.running) = some true ∧
     (automate_parameter_completes testController [] "a2" 0 0 30
        [0, 1]).1.calls.length = testController.calls.length + 30 / 10) :=
  ⟨by norm_num [testController], rfl,
   automation_completes_running_stays_true testController [] "a2" 0 0 30
     [0, 1] (by norm_num [testController]) rfl⟩

/-! ## Claim C7 -/

/-- C7: capture-then-restore round trip.  For a snapshot created by
`create_snapshot` (requiring an active session), restoring it through
`switch_session` — under the conditions the claim presumes: the snapshot id
does not collide with a session id, the project load succeeds, and every
captured plugin is present in the controller table the load rebuilds —
applies every captured parameter value back through the batch bridge, so
that afterwards `get_parameter` returns exactly the captured value for each
captured parameter (no concurrent automation exists in this sequential
model, matching the claim's exclusion). -/
theorem snapshot_capture_restore_roundtrip
    (st : SessionState) (cCap cR : Controller) (snapshotId name : String)
    (img : HostImage)
    (hact : st.activeSession.isSome)
    (hsess : dlookup st.sessions snapshotId = none)
    (hok : img.loadOk = true)
    (hpresent : ∀ ps ∈ capturePluginStates cCap,
      (dlookup ((cR.load_project img).1).plugins ps.id).isSome) :
    ∀ ps ∈ capturePluginStates cCap, ∀ p v, (p, v) ∈ ps.parameters →
      ((switch_session (create_snapshot st cCap snapshotId name).1 cR
        snapshotId img).2.1).get_parameter ps.id p = v := by
  obtain ⟨a, ha⟩ := Option.isSome_iff_exists.mp hact
  intro ps hps p v hpv
  have hses1 : (create_snapshot st cCap snapshotId name).1.sessions =
      st.sessions := by
    unfold create_snapshot
    rw [ha]
  have hsnaps1 : (create_snapshot st cCap snapshotId name).1.snapshots =
      dinsert st.snapshots snapshotId
        (Snapshot.mk name a
          ("snapshots/" ++ snapshotId ++ "/" ++ name ++ ".carxp")
          ("snapshots/" ++ snapshotId) (capturePluginStates cCap)) := by
    unfold create_snapshot
    rw [ha]
  have hload2 : (cR.load_project img).2 = true := by
    unfold Controller.load_project
    rw [hok]
    simp
  unfold switch_session
  rw [hses1, hsess]
  rw [if_neg (by simp : ¬ ((none : Option Session).isSome = true))]
  rw [hsnaps1, dlookup_dinsert_self]
  dsimp only
  rw [hload2]
  rw [if_pos rfl]
  dsimp only
  have hpres1 : (dlookup ((restoreVolDry (capturePluginStates cCap)
      (restoreActiveOps (capturePluginStates cCap)
        (restoreParamOps (capturePluginStates cCap)
          (cR.load_project img).1))).1).plugins ps.id).isSome = true := by
    rw [(restoreVolDry_props _ _).2, restoreActiveOps_isSome,
      restoreParamOps_isSome]
    exact hpresent ps hps
  obtain ⟨r, hr⟩ := Option.isSome_iff_exists.mp hpres1
  unfold Controller.get_parameter
  rw [hr]
  dsimp only
  rw [(restoreVolDry_props _ _).1, restoreActiveOps_hostParams]
  exact restoreParamOps_hostParams_self (capturePluginStates cCap)
    ((cR.load_project img).1) (fun q hq => hpresent q hq)
    (capture_ids_pairwise cCap) (capture_params_nodup cCap) ps hps p v hpv

/-- Witness for `snapshot_capture_restore_roundtrip`: capture
`testController` (both captured parameter values are 0), reload over
`testImage` (whose parameter values are all 5), and observe that parameter
`(0, 0)` is back to its captured value 0. -/
theorem snapshot_capture_restore_roundtrip_witness :
    ((SessionState.mk [] [] (some "sess1") []).activeSession.isSome =
      true) ∧
    (dlookup (SessionState.mk [] [] (some "sess1") []).sessions "snapX" =
      none) ∧
    (testImage.loadOk = true) ∧
    ((switch_session (create_snapshot
        (SessionState.mk [] [] (some "sess1") []) testController "snapX"
        "mix B").1 testController "snapX" testImage).2.1).get_parameter
        0 0 = 0 :=
  ⟨rfl, rfl, rfl,
   snapshot_capture_restore_roundtrip
     (SessionState.mk [] [] (some "sess1") []) testController
     testController "snapX" "mix B" testImage rfl rfl rfl (by decide)
     (PluginState.mk 0 "EQ" true 1 1 [(0, 0)]) (by decide) 0 0
     (by decide)⟩
